import Mathlib

/-!
Verification development for `migrate_md.py`, a line-based Jekyll-to-Pelican
Markdown migrator.  Lines are modelled as `List Char` (Python strings are
sequences of code points), fallible code returns `Except String`, and the
stateful front-matter transformer is modelled by explicit state passing.
-/

set_option autoImplicit false

/-- A Python string (one line of text, possibly including its newline). -/
abbrev Str := List Char

/-- Characters stripped by Python's `str.strip()` (ASCII whitespace subset;
the inputs handled by the tool contain only spaces, tabs and newlines). -/
def pyIsSpace (c : Char) : Bool :=
  c == ' ' || c == '\t' || c == '\n' || c == '\r' || c == '\x0b' || c == '\x0c'

/-- Python `str.strip()`. -/
def strip (s : Str) : Str :=
  ((s.dropWhile pyIsSpace).reverse.dropWhile pyIsSpace).reverse

/-- Python `str.lstrip()`. -/
def lstrip (s : Str) : Str :=
  s.dropWhile pyIsSpace

/-- Python `str.strip(c)` for a single character argument. -/
def stripChar (c : Char) (s : Str) : Str :=
  ((s.dropWhile (· == c)).reverse.dropWhile (· == c)).reverse

/-- Auxiliary scan for `find_sub`: first index at or after `i` where `pat`
is a prefix of the remaining suffix. -/
def findSubAux (pat : Str) : Str → Nat → Option Nat
  | [], i => if pat = [] then some i else none
  | c :: t, i => if pat.isPrefixOf (c :: t) then some i else findSubAux pat t (i + 1)

/-- Python `str.find` / `str.index` (no bounds): index of the first
occurrence of `pat` in `s`, `none` when absent. -/
def find_sub (s pat : Str) : Option Nat :=
  findSubAux pat s 0

/-- Python slice `s[a:b]` for non-negative bounds. -/
def pySlice (s : Str) (a b : Nat) : Str :=
  (s.take b).drop a

/-- Python slice-bound adjustment: a negative bound counts from the end
(clamped at 0), a non-negative bound is clamped at the length. -/
def pyAdjust (i : Int) (n : Nat) : Nat :=
  if i < 0 then ((n : Int) + i).toNat else min i.toNat n

/-- Python `s.index(pat, i, j)`: search restricted to the slice `s[i:j]`
(with Python's negative-bound semantics), result as an absolute index. -/
def index_slice (s pat : Str) (i j : Int) : Option Nat :=
  let a := pyAdjust i s.length
  let b := pyAdjust j s.length
  (find_sub (pySlice s a b) pat).map (· + a)

/-- Python `s.index(pat, a)`: search starting at index `a`. -/
def index_from (s pat : Str) (a : Nat) : Option Nat :=
  (find_sub (s.drop a) pat).map (· + a)

/-- Python `pat in s`. -/
def containsSub (s pat : Str) : Bool :=
  (find_sub s pat).isSome

/-- Auxiliary accumulator for `splitLines`. -/
def splitLinesAux : Str → Str → List Str
  | [], acc => if acc = [] then [] else [acc.reverse]
  | c :: t, acc =>
    if c = '\n' then (acc.reverse ++ ['\n']) :: splitLinesAux t []
    else splitLinesAux t (c :: acc)

/-- Split a file's content into lines the way Python file iteration does:
each line keeps its trailing newline, a last unterminated line is kept too. -/
def splitLines (s : Str) : List Str :=
  splitLinesAux s []

/-- A recorded front-matter tag value: either a scalar string or a list of
items (`dict[str: str | list[str]]` in the source). -/
inductive TagValue where
  | str (s : Str)
  | list (items : List Str)
deriving DecidableEq

/-- State of `HeaderTransformer` (`__init__` in the source): `primed` once
the opening `---` was seen, `completed` once the closing one was, the
insertion-ordered `content` mapping and the `current_tag` cursor. -/
structure HeaderTransformer where
  primed : Bool
  completed : Bool
  content : List (Str × TagValue)
  current_tag : Option Str
deriving DecidableEq

/-- Python dict lookup `content[k]` (as an `Option`), on the
insertion-ordered association list. -/
def dictGet (d : List (Str × TagValue)) (k : Str) : Option TagValue :=
  match d.find? (fun p => decide (p.1 = k)) with
  | some p => some p.2
  | none => none

/-- Python dict assignment `content[k] = v`: replaces in place when the key
exists (keeping its position), appends otherwise. -/
def dictSet : List (Str × TagValue) → Str → TagValue → List (Str × TagValue)
  | [], k, v => [(k, v)]
  | (k0, v0) :: t, k, v =>
    if k0 = k then (k0, v) :: t else (k0, v0) :: dictSet t k v

/-- `HeaderTransformer._process_tag`: lower-case and trim the tag, trim the
value, set `current_tag`, and store the scalar only when non-empty. -/
def HeaderTransformer.process_tag (st : HeaderTransformer) (tag value : Str) :
    HeaderTransformer :=
  let t := (strip tag).map Char.toLower
  let v := strip value
  { st with
    current_tag := some t
    content := if v = [] then st.content else dictSet st.content t (TagValue.str v) }

/-- `HeaderTransformer._process_item`: trim the item; error when there is no
current tag (Python also raises when the tag is the empty, falsy string) or
when the current tag already holds a scalar; otherwise append to (or create)
the current tag's list. -/
def HeaderTransformer.process_item (st : HeaderTransformer) (item : Str) :
    Except String HeaderTransformer :=
  let it := strip item
  match st.current_tag with
  | none => .error "item found while there is no current tag"
  | some t =>
    if t = [] then .error "item found while there is no current tag"
    else
      match dictGet st.content t with
      | some (TagValue.str _) =>
        .error ("item found but tag " ++ String.mk t ++ " already has a value")
      | some (TagValue.list l) =>
        .ok { st with content := dictSet st.content t (TagValue.list (l ++ [it])) }
      | none =>
        .ok { st with content := dictSet st.content t (TagValue.list [it]) }

/-- One arm of the `match` in `HeaderTransformer._new_header_content`: the
rendered line(s) for one content entry.  A list value reaching the `title`
or `description` arm is a Python runtime type error (`.strip` on a list,
`str + list`); `", ".join` over a scalar string iterates its characters. -/
def renderOne (k : Str) (v : TagValue) : Except String (List Str) :=
  if k = ("title").data then
    match v with
    | TagValue.str s => .ok [("Title: ").data ++ stripChar '"' s]
    | TagValue.list _ => .error "AttributeError: 'list' object has no attribute 'strip'"
  else if k = ("tags").data then
    .ok [("Tags: ").data ++
      List.intercalate ((", ").data)
        (match v with
          | TagValue.str s => s.map (fun c => [c])
          | TagValue.list l => l)]
  else if k = ("description").data then
    match v with
    | TagValue.str s => .ok [("Summary: ").data ++ s]
    | TagValue.list _ => .error "TypeError: can only concatenate str (not list) to str"
  else .ok []

/-- `HeaderTransformer._new_header_content`: render the content entries in
insertion order, dropping unrecognized tags. -/
def HeaderTransformer.new_header_content : List (Str × TagValue) → Except String (List Str)
  | [] => .ok []
  | (k, v) :: t =>
    Except.bind (renderOne k v) (fun hd =>
      Except.bind (HeaderTransformer.new_header_content t) (fun rest =>
        .ok (hd ++ rest)))

/-- `HeaderTransformer.process_line`.  Primes on line 0's `---`; while primed
and not completed it consumes any line containing a colon (recording a tag
only when the colon index exceeds 1), then list items, then the closing
delimiter (emitting the re-rendered header, or nothing when it is empty);
otherwise it declines. -/
def HeaderTransformer.process_line (st : HeaderTransformer) (n : Nat) (line : Str) :
    Except String (HeaderTransformer × Bool × Option Str) :=
  if n = 0 ∧ line = ("---\n").data then
    .ok ({ st with primed := true }, true, none)
  else if st.primed = false ∨ st.completed = true then
    .ok (st, false, some line)
  else
    match find_sub line ((":").data) with
    | some ci =>
      if ci > 1 then .ok (st.process_tag (line.take ci) (line.drop (ci + 1)), true, none)
      else .ok (st, true, none)
    | none =>
      if ("- ").data.isPrefixOf (lstrip line) then
        match find_sub line (("-").data) with
        | some di =>
          (st.process_item (strip (line.drop (di + 1)))).map (fun st2 => (st2, true, none))
        | none => .error "ValueError: substring not found"
      else if line = ("---\n").data then
        (HeaderTransformer.new_header_content st.content).map (fun ls =>
          ({ st with completed := true }, true,
            if ls = [] then none
            else some (List.intercalate (("\n").data) ls ++ ("\n").data)))
      else .ok (st, false, some line)

/-- Run `HeaderTransformer.process_line` over consecutive lines, collecting
each line's `(handled, replacement)` outcome. -/
def runHeaderLines : HeaderTransformer → Nat → List Str →
    Except String (HeaderTransformer × List (Bool × Option Str))
  | st, _, [] => .ok (st, [])
  | st, n, l :: ls =>
    match HeaderTransformer.process_line st n l with
    | .error e => .error e
    | .ok (st2, m, out) =>
      match runHeaderLines st2 (n + 1) ls with
      | .error e => .error e
      | .ok (st3, rest) => .ok (st3, (m, out) :: rest)

/-- `CodeBlocks.process_line`: a line containing `{% highlight ... %}` (the
closing `%}` searched from after the opening marker) becomes a backtick
fence with the trimmed language; otherwise a line containing
`{% endhighlight %}` becomes a bare fence; otherwise decline. -/
def CodeBlocks.process_line (n : Nat) (line : Str) : Bool × Option Str :=
  let fallback :=
    if containsSub line (("\x7b% endhighlight %\x7d").data) then (true, some (("```\n").data))
    else (false, some line)
  match find_sub line (("\x7b% highlight").data) with
  | some s =>
    match index_from line (("%\x7d").data) (s + 12) with
    | some e => (true, some ((("```").data ++ strip (pySlice line (s + 12) e)) ++ ("\n").data))
    | none => fallback
  | none => fallback

/-- `Toc.process_line`: delete a `* Table of Contents` line, replace a
`{:toc}` line by `[TOC]`, otherwise decline. -/
def Toc.process_line (n : Nat) (line : Str) : Bool × Option Str :=
  if containsSub line (("* Table of Contents").data) then (true, none)
  else if containsSub line (("\x7b:toc\x7d").data) then (true, some (("[TOC]\n").data))
  else (false, some line)

/-- `InternalContentLinks._customize_link_path`: known relative categories
become absolute paths with a `.md` suffix. -/
def InternalContentLinks.customize_link_path (lp : Str) : Str :=
  if ("articles/").data.isPrefixOf lp ∨ ("tips/").data.isPrefixOf lp then
    ("/").data ++ lp ++ (".md").data
  else lp

/-- The `while pos > -1` loop of `InternalContentLinks.process_line`,
fuel-bounded (the fuel models only the unbounded re-scan; every claim proved
about it is independent of the fuel value actually needed). -/
def InternalContentLinks.loop : Nat → Str → Nat → Except String Str
  | 0, _, _ => .error "model: rewrite loop fuel exhausted"
  | fuel + 1, nl, pos =>
    match index_slice nl (("(").data) ((pos : Int) - 5) (pos : Int) with
    | none => .error "Failed to find parenthesis within range"
    | some op =>
      match find_sub nl ((")").data) with
      | none => .error "Failed to find parenthesis within range"
      | some ep =>
        let lp := strip (pySlice nl (op + 1) ep)
        match find_sub lp (("\x7b%").data), find_sub lp (("%\x7d").data) with
        | some pp, some pe =>
          let body := strip (pySlice lp (pp + 2) pe)
          if ("post_url").data.isPrefixOf body then
            let path := InternalContentLinks.customize_link_path (strip (body.drop 9))
            let nl2 := pySlice nl 0 (op + pp + 1) ++ ("\x7bfilename\x7d").data ++ path ++
              nl.drop (op + pe + 3)
            match find_sub nl2 (("post_url").data) with
            | some pos2 => InternalContentLinks.loop fuel nl2 pos2
            | none => .ok nl2
          else .error ("Can not find post_url in " ++ String.mk body)
        | _, _ => .error ("Can not find markers in " ++ String.mk lp)

/-- `InternalContentLinks.process_line`: decline when the `post_url` token is
absent, otherwise run the rewrite loop (any `RuntimeError` is an error). -/
def InternalContentLinks.process_line (line : Str) : Except String (Bool × Option Str) :=
  match find_sub line (("post_url").data) with
  | none => .ok (false, some line)
  | some pos =>
    (InternalContentLinks.loop (line.length + 1) line pos).map (fun nl => (true, some nl))

/-- `SiteLinks._customize_link_path`: the `/resources/` prefix becomes
`/images/`. -/
def SiteLinks.customize_link_path (lp : Str) : Str :=
  if ("/resources/").data.isPrefixOf lp then ("/images/").data ++ lp.drop 11
  else lp

/-- The `while pos > -1` loop of `SiteLinks.process_line`, fuel-bounded the
same way as `InternalContentLinks.loop`. -/
def SiteLinks.loop : Nat → Str → Nat → Except String Str
  | 0, _, _ => .error "model: rewrite loop fuel exhausted"
  | fuel + 1, nl, pos =>
    match index_slice nl (("(").data) ((pos : Int) - 5) (pos : Int) with
    | none => .error "Failed to find parenthesis within range"
    | some op =>
      match find_sub nl ((")").data) with
      | none => .error "Failed to find parenthesis within range"
      | some ep =>
        let lp := strip (pySlice nl (op + 1) ep)
        match find_sub lp (("\x7b\x7b").data), find_sub lp (("\x7d\x7d").data) with
        | some pp, some pe =>
          let site_url := strip (pySlice lp (pp + 2) pe)
          if site_url = ("site.url").data then
            let path := SiteLinks.customize_link_path (strip (lp.drop (pe + 2)))
            let nl2 := pySlice nl 0 (op + pp + 1) ++ ("\x7bstatic\x7d").data ++ path ++ nl.drop ep
            match find_sub nl2 (("site.url").data) with
            | some pos2 => SiteLinks.loop fuel nl2 pos2
            | none => .ok nl2
          else .error ("Can not find tag in " ++ String.mk lp)
        | _, _ => .error ("Can not find markers in " ++ String.mk lp)

/-- `SiteLinks.process_line`: decline when the `site.url` token is absent,
otherwise run the rewrite loop. -/
def SiteLinks.process_line (line : Str) : Except String (Bool × Option Str) :=
  match find_sub line (("site.url").data) with
  | none => .ok (false, some line)
  | some pos =>
    (SiteLinks.loop (line.length + 1) line pos).map (fun nl => (true, some nl))

/-- The common shape of one processor in the chain: state in, line number and
line in; state out, handled flag and replacement out (errors abort). -/
def Proc := HeaderTransformer → Nat → Str → Except String (HeaderTransformer × Bool × Option Str)

/-- `HeaderTransformer()` entry of `_create_processors`. -/
def headerP : Proc := HeaderTransformer.process_line

/-- `CodeBlocks()` entry of `_create_processors` (stateless). -/
def codeBlocksP : Proc := fun st n l =>
  let r := CodeBlocks.process_line n l
  .ok (st, r.1, r.2)

/-- `Toc()` entry of `_create_processors` (stateless). -/
def tocP : Proc := fun st n l =>
  let r := Toc.process_line n l
  .ok (st, r.1, r.2)

/-- `InternalContentLinks()` entry of `_create_processors` (stateless). -/
def internalP : Proc := fun st _ l =>
  (InternalContentLinks.process_line l).map (fun r => (st, r.1, r.2))

/-- `SiteLinks()` entry of `_create_processors` (stateless). -/
def siteP : Proc := fun st _ l =>
  (SiteLinks.process_line l).map (fun r => (st, r.1, r.2))

/-- `_create_processors`: the fixed processor order. -/
def create_processors : List Proc := [headerP, codeBlocksP, tocP, internalP, siteP]

/-- The inner `for p in processors` loop of `migrate`: consult processors in
order, stopping at the first that reports the line handled. -/
def runChain : List Proc → HeaderTransformer → Nat → Str →
    Except String (HeaderTransformer × Bool × Option Str)
  | [], st, _, _ => .ok (st, false, none)
  | p :: ps, st, n, l =>
    match p st n l with
    | .error e => .error e
    | .ok (st2, m, out) => if m then .ok (st2, true, out) else runChain ps st2 n l

/-- All of the given processors decline the line; returns the threaded state. -/
def declineAll : List Proc → HeaderTransformer → Nat → Str → Option HeaderTransformer
  | [], st, _, _ => some st
  | p :: ps, st, n, l =>
    match p st n l with
    | .ok (st2, false, _) => declineAll ps st2 n l
    | _ => none

/-- What `migrate` writes for one line: the handler's replacement when truthy
(Python's `if new_line:` skips both `None` and the empty string), nothing
when falsy, and the original line when no processor handled it. -/
def writeOf (m : Bool) (out : Option Str) (l : Str) : Str :=
  if m then
    match out with
    | some s => if s = [] then [] else s
    | none => []
  else l

/-- One line of `migrate`'s main loop. -/
def migrateLine (st : HeaderTransformer) (n : Nat) (l : Str) :
    Except String (HeaderTransformer × Str) :=
  (runChain create_processors st n l).map (fun r => (r.1, writeOf r.2.1 r.2.2 l))

/-- `migrate`'s main loop over the enumerated backup lines, concatenating
everything written to the output file. -/
def migrateLines : HeaderTransformer → Nat → List Str → Except String Str
  | _, _, [] => .ok []
  | st, n, l :: ls =>
    match migrateLine st n l with
    | .error e => .error e
    | .ok (st2, o) =>
      match migrateLines st2 (n + 1) ls with
      | .error e => .error e
      | .ok rest => .ok (o ++ rest)

/-- The freshly constructed `HeaderTransformer()` state. -/
def initHeader : HeaderTransformer :=
  { primed := false, completed := false, content := [], current_tag := none }

/-- Process a whole file content with fresh processor instances. -/
def processContent (c : Str) : Except String Str :=
  migrateLines initHeader 0 (splitLines c)

/-- `migrate`, as a function of the pair (current file content, optional
backup content): create the backup from the current content when absent,
then rewrite the file from the backup's lines.  Returns (new file content,
backup content). -/
def migrate (md : Str) (backup : Option Str) : Except String (Str × Str) :=
  let b := match backup with | some b => b | none => md
  (processContent b).map (fun out => (out, b))

/-- Decidable equality for `Except`, for evaluating concrete runs. -/
instance instDecEqExcept {ε α : Type} [DecidableEq ε] [DecidableEq α] :
    DecidableEq (Except ε α)
  | .error a, .error b =>
    if h : a = b then .isTrue (by rw [h]) else .isFalse (fun he => h (Except.error.inj he))
  | .error _, .ok _ => .isFalse (fun he => Except.noConfusion he)
  | .ok _, .error _ => .isFalse (fun he => Except.noConfusion he)
  | .ok a, .ok b =>
    if h : a = b then .isTrue (by rw [h]) else .isFalse (fun he => h (Except.ok.inj he))

/-- `Except.bind` on an `ok` scrutinee reduces to the continuation. -/
theorem exbind_ok {α β : Type} (a : α) (f : α → Except String β) :
    Except.bind (Except.ok a) f = f a := rfl

/-- Binding the identity continuation is the identity. -/
theorem exbind_okid {α : Type} (x : Except String α) :
    Except.bind x (fun a => Except.ok a) = x := by
  cases x <;> rfl

/-- A Python slice with an upper bound at or below the lower bound is empty. -/
theorem pySlice_nil (l : Str) (a b : Nat) (h : b ≤ a) : pySlice l a b = [] := by
  unfold pySlice
  apply List.drop_eq_nil_of_le
  calc (l.take b).length = min b l.length := List.length_take b l
    _ ≤ b := min_le_left _ _
    _ ≤ a := h

/-- C6: during front-matter parsing, a list item with no current tag errors,
a list item for a current tag already holding a scalar errors, and a list
item for a current tag holding a list appends to that list. -/
theorem c6_list_item_consistency :
    (∀ (st : HeaderTransformer) (item : Str), st.current_tag = none →
        st.process_item item = .error "item found while there is no current tag")
    ∧ (∀ (st : HeaderTransformer) (item t s : Str),
        st.current_tag = some t → t ≠ [] →
        dictGet st.content t = some (TagValue.str s) →
        st.process_item item =
          .error ("item found but tag " ++ String.mk t ++ " already has a value"))
    ∧ (∀ (st : HeaderTransformer) (item t : Str) (l : List Str),
        st.current_tag = some t → t ≠ [] →
        dictGet st.content t = some (TagValue.list l) →
        st.process_item item =
          .ok { st with content := dictSet st.content t (TagValue.list (l ++ [strip item])) }) := by
  refine ⟨?_, ?_, ?_⟩
  · intro st item hct
    unfold HeaderTransformer.process_item
    rw [hct]
  · intro st item t s hct ht hg
    unfold HeaderTransformer.process_item
    rw [hct]
    simp only [if_neg ht, hg]
  · intro st item t l hct ht hg
    unfold HeaderTransformer.process_item
    rw [hct]
    simp only [if_neg ht, hg]

/-- Witness for C6 at concrete states: no current tag, a scalar-valued
current tag, and a list-valued current tag. -/
theorem c6_list_item_consistency_w :
    HeaderTransformer.process_item
        { primed := true, completed := false, content := [], current_tag := none }
        (("a").data)
      = .error "item found while there is no current tag"
    ∧ HeaderTransformer.process_item
        { primed := true, completed := false,
          content := [(("tags").data, TagValue.str (("x").data))],
          current_tag := some (("tags").data) }
        (("a").data)
      = .error "item found but tag tags already has a value"
    ∧ HeaderTransformer.process_item
        { primed := true, completed := false,
          content := [(("tags").data, TagValue.list [("a").data])],
          current_tag := some (("tags").data) }
        (("b").data)
      = .ok { primed := true, completed := false,
              content := [(("tags").data, TagValue.list [("a").data, ("b").data])],
              current_tag := some (("tags").data) } := by
  refine ⟨c6_list_item_consistency.1 _ _ rfl, ?_, ?_⟩
  · exact c6_list_item_consistency.2.1 _ (("a").data) (("tags").data) (("x").data)
      rfl (by decide) (by decide)
  · exact c6_list_item_consistency.2.2 _ (("b").data) (("tags").data) [("a").data]
      rfl (by decide) (by decide)

/-- C7: a line that no processor handled is written to the output
byte-identical to the backup line, terminator included. -/
theorem c7_pass_through_identity (st : HeaderTransformer) (n : Nat) (l : Str)
    (st2 : HeaderTransformer) (out : Option Str)
    (h : runChain create_processors st n l = .ok (st2, false, out)) :
    migrateLine st n l = .ok (st2, l) := by
  unfold migrateLine
  rw [h]
  rfl

/-- Witness for C7: no processor handles `hello\n`, and it is copied
verbatim. -/
theorem c7_pass_through_identity_w :
    runChain create_processors initHeader 1 (("hello\n").data)
        = .ok (initHeader, false, none)
    ∧ migrateLine initHeader 1 (("hello\n").data) = .ok (initHeader, ("hello\n").data) :=
  ⟨by decide, c7_pass_through_identity initHeader 1 (("hello\n").data) initHeader none (by decide)⟩

/-- C8: the first run snapshots the original as the backup; a second run
reads the backup (not the rewritten file), leaves the backup unchanged and
reproduces the first run's output. -/
theorem c8_backup_idempotent (orig out1 b1 : Str)
    (h : migrate orig none = .ok (out1, b1)) :
    b1 = orig ∧ migrate out1 (some b1) = .ok (out1, b1) := by
  unfold migrate at h ⊢
  dsimp only at h ⊢
  cases hp : processContent orig with
  | error e => rw [hp] at h; exact absurd h (by simp [Except.map])
  | ok o =>
    rw [hp] at h
    simp only [Except.map] at h
    have ho : o = out1 := congrArg Prod.fst (Except.ok.inj h)
    have hb : orig = b1 := congrArg Prod.snd (Except.ok.inj h)
    subst ho
    subst hb
    exact ⟨rfl, by rw [hp]; rfl⟩

/-- Witness for C8 on a concrete one-line file. -/
theorem c8_backup_idempotent_w :
    ("hi\n").data = ("hi\n").data
    ∧ migrate (("hi\n").data) (some (("hi\n").data)) = .ok (("hi\n").data, ("hi\n").data) :=
  c8_backup_idempotent (("hi\n").data) (("hi\n").data) (("hi\n").data) (by decide)

/-- A `HeaderTransformer` state that has consumed the opening delimiter and
nothing else: primed, not completed, empty content, no current tag. -/
def stPrimed : HeaderTransformer :=
  { primed := true, completed := false, content := [], current_tag := none }

/-- Counterexample to C2: while primed, the line `: x` (first colon at
index 0) is still consumed by the colon branch of `process_line`, which
returns `(handled, emit nothing)` — whereas the claim predicts the line is
not consumed there and instead falls to the subsequent checks, which would
decline it unchanged (`(not handled, the line)`). -/
theorem c2_colon_consume_counterexample :
    HeaderTransformer.process_line stPrimed 1 ((": x\n").data)
      = .ok (stPrimed, true, none)
    ∧ (Except.ok (stPrimed, true, (none : Option Str))
        : Except String (HeaderTransformer × Bool × Option Str))
      ≠ .ok (stPrimed, false, some ((": x\n").data)) :=
  ⟨by decide, by decide⟩

/-- C2 amended: while primed and not completed, a line containing a colon
anywhere is always consumed by the colon branch (returning handled with no
emission); the colon index only decides whether a tag is recorded (index
greater than 1) or nothing is recorded (index 0 or 1). -/
theorem c2_colon_consume_amended (st : HeaderTransformer) (n : Nat) (line : Str) (ci : Nat)
    (hp : st.primed = true) (hc : st.completed = false)
    (hf : find_sub line ((":").data) = some ci) :
    HeaderTransformer.process_line st n line =
      .ok ((if ci > 1 then st.process_tag (line.take ci) (line.drop (ci + 1)) else st),
        true, none) := by
  have hnone : find_sub (("---\n").data) ((":").data) = none := by decide
  have hline : line ≠ ("---\n").data := by
    intro he
    rw [he, hnone] at hf
    exact Option.noConfusion hf
  unfold HeaderTransformer.process_line
  rw [if_neg (fun h => hline h.2), if_neg (by rw [hp, hc]; simp), hf]
  dsimp only
  by_cases h : ci > 1
  · rw [if_pos h, if_pos h]
  · rw [if_neg h, if_neg h]

/-- Witness for C2 amended: a colon at index 1 is consumed without
recording a tag. -/
theorem c2_colon_consume_amended_w :
    HeaderTransformer.process_line stPrimed 1 (("a: b\n").data)
      = .ok (if 1 > 1
          then stPrimed.process_tag ((("a: b\n").data).take 1) ((("a: b\n").data).drop 2)
          else stPrimed,
        true, none) :=
  c2_colon_consume_amended stPrimed 1 (("a: b\n").data) 1 rfl rfl (by decide)

/-- Counterexample to C3: in `a) [x]({% post_url articles/p %})`, the only
closing parenthesis after the opening one closes a well-formed directive,
yet the rewrite fails instead of succeeding as the claim predicts, because
the code takes the first closing parenthesis of the whole line — here the
one before the opening parenthesis. -/
theorem c3_closing_paren_counterexample :
    InternalContentLinks.process_line (("a) [x](\x7b% post_url articles/p %\x7d)\n").data)
      = .error "Can not find markers in " := by
  decide

/-- C3 amended: the destination span ends at the first closing parenthesis
of the entire line (searched from the start, not after the opening
parenthesis); when that closing parenthesis lies before the opening one the
captured span is empty and `process_line` raises a markers error instead of
rewriting. -/
theorem c3_closing_paren_amended (l : Str) (pos op ep : Nat)
    (hpos : find_sub l (("post_url").data) = some pos)
    (hop : index_slice l (("(").data) ((pos : Int) - 5) (pos : Int) = some op)
    (hep : find_sub l ((")").data) = some ep)
    (hlt : ep < op + 1) :
    InternalContentLinks.process_line l = .error "Can not find markers in " := by
  unfold InternalContentLinks.process_line
  rw [hpos]
  show Except.map _ (InternalContentLinks.loop (l.length + 1) l pos) = _
  unfold InternalContentLinks.loop
  rw [hop, hep]
  dsimp only
  rw [pySlice_nil l (op + 1) ep (le_of_lt hlt)]
  rfl

/-- Witness for C3 amended at the counterexample line. -/
theorem c3_closing_paren_amended_w :
    InternalContentLinks.process_line (("a) [x](\x7b% post_url articles/p %\x7d)\n").data)
      = .error "Can not find markers in " :=
  c3_closing_paren_amended (("a) [x](\x7b% post_url articles/p %\x7d)\n").data)
    10 6 1 (by decide) (by decide) (by decide) (by decide)

/-- C4: the processors are consulted in the fixed order `HeaderTransformer`,
`CodeBlocks`, `Toc`, `InternalContentLinks`, `SiteLinks`, and once every
processor before `p` has declined a line, a handling `p` alone determines
the chain's result: the processors after it are never consulted (the result
is the same for any tail). -/
theorem c4_processor_order_first_wins :
    create_processors = [headerP, codeBlocksP, tocP, internalP, siteP]
    ∧ ∀ (ps : List Proc), ∀ (qs qs2 : List Proc) (p : Proc) (st st1 st2 : HeaderTransformer)
        (n : Nat) (l : Str) (out : Option Str),
        declineAll ps st n l = some st1 →
        p st1 n l = .ok (st2, true, out) →
        runChain (ps ++ p :: qs) st n l = .ok (st2, true, out) ∧
          runChain (ps ++ p :: qs) st n l = runChain (ps ++ p :: qs2) st n l := by
  refine ⟨rfl, ?_⟩
  intro ps
  induction ps with
  | nil =>
    intro qs qs2 p st st1 st2 n l out hd hp
    have hst : st = st1 := by
      simpa only [declineAll, Option.some.injEq] using hd
    subst hst
    constructor
    · simp only [List.nil_append, runChain, hp]
      simp
    · simp only [List.nil_append, runChain, hp]
      simp
  | cons q ps ih =>
    intro qs qs2 p st st1 st2 n l out hd hp
    simp only [declineAll] at hd
    cases hq : q st n l with
    | error e => rw [hq] at hd; exact absurd hd (by simp)
    | ok r =>
      obtain ⟨st3, m, o⟩ := r
      rw [hq] at hd
      cases m with
      | true => exact absurd hd (by simp)
      | false =>
        have h2 := ih qs qs2 p st3 st1 st2 n l out hd hp
        constructor
        · simp only [List.cons_append, runChain, hq]
          simpa using h2.1
        · simp only [List.cons_append, runChain, hq]
          simpa using h2.2

/-- Witness for C4: with the header transformer (which declines) before it,
`CodeBlocks` handles an `endhighlight` line and the chain result is
independent of the processors after `CodeBlocks`. -/
theorem c4_processor_order_first_wins_w :
    runChain ([headerP] ++ codeBlocksP :: [tocP, internalP, siteP]) initHeader 1
        (("\x7b% endhighlight %\x7d\n").data)
      = .ok (initHeader, true, some (("```\n").data))
    ∧ runChain ([headerP] ++ codeBlocksP :: [tocP, internalP, siteP]) initHeader 1
        (("\x7b% endhighlight %\x7d\n").data)
      = runChain ([headerP] ++ codeBlocksP :: []) initHeader 1
        (("\x7b% endhighlight %\x7d\n").data) :=
  c4_processor_order_first_wins.2 [headerP] [tocP, internalP, siteP] [] codeBlocksP
    initHeader initHeader initHeader 1 (("\x7b% endhighlight %\x7d\n").data)
    (some (("```\n").data)) (by decide) (by decide)

/-- Joining a single chunk with any separator is that chunk. -/
theorem intercalate_single (sep x : Str) : List.intercalate sep [x] = x := by
  simp [List.intercalate]

/-- C9: when `tags` was recorded as a scalar string, the rendered line joins
the individual characters of that string with `", "` (`", ".join` iterates
a string's characters), e.g. scalar `abc` renders as `Tags: a, b, c`. -/
theorem c9_scalar_tags_char_join :
    (∀ (st : HeaderTransformer) (n : Nat) (s : Str),
        st.primed = true → st.completed = false → n ≠ 0 →
        st.content = [(("tags").data, TagValue.str s)] →
        HeaderTransformer.process_line st n (("---\n").data)
          = .ok ({ st with completed := true }, true,
              some ((("Tags: ").data ++
                List.intercalate ((", ").data) (s.map (fun c => [c]))) ++ ("\n").data)))
    ∧ (runHeaderLines stPrimed 1 [("tags: abc\n").data, ("---\n").data]).map (fun r => r.2)
        = .ok [(true, none), (true, some (("Tags: a, b, c\n").data))] := by
  constructor
  · intro st n s hp hc hn hcont
    unfold HeaderTransformer.process_line
    rw [if_neg (fun h => hn h.1), if_neg (by rw [hp, hc]; simp)]
    have h1 : find_sub (("---\n").data) ((":").data) = none := by decide
    rw [h1]
    dsimp only
    rw [if_neg (by decide), if_pos rfl, hcont]
    have h2 : HeaderTransformer.new_header_content [(("tags").data, TagValue.str s)]
        = .ok [("Tags: ").data ++ List.intercalate ((", ").data) (s.map (fun c => [c]))] := by
      unfold HeaderTransformer.new_header_content renderOne
      rw [if_neg (by decide), if_pos rfl]
      rfl
    rw [h2]
    dsimp only [Except.map]
    rw [if_neg (List.cons_ne_nil _ _), intercalate_single]
  · decide

/-- A primed state whose content holds `tags` as the scalar `abc`. -/
def stTagsScalar : HeaderTransformer :=
  { primed := true, completed := false,
    content := [(("tags").data, TagValue.str (("abc").data))],
    current_tag := some (("tags").data) }

/-- Witness for C9 at the scalar `abc`. -/
theorem c9_scalar_tags_char_join_w :
    HeaderTransformer.process_line stTagsScalar 2 (("---\n").data)
      = .ok ({ stTagsScalar with completed := true }, true,
          some ((("Tags: ").data ++ List.intercalate ((", ").data)
            ((("abc").data).map (fun c => [c]))) ++ ("\n").data)) :=
  c9_scalar_tags_char_join.1 stTagsScalar 2 (("abc").data) rfl rfl (by decide) rfl

/-- C5: whenever a link rewriter finds its trigger token but the expected
parenthesis structure is missing (no opening parenthesis in the 5-character
lookback window, or no closing parenthesis anywhere), or the directive
markers are missing from the captured span, or the captured tag content is
wrong (`post_url` not at the start of the body, captured site tag not equal
to `site.url`), `process_line` yields an error and no rewritten line. -/
theorem c5_malformed_link_errors :
    (∀ (l : Str) (pos : Nat), find_sub l (("post_url").data) = some pos →
        (index_slice l (("(").data) ((pos : Int) - 5) (pos : Int) = none
          ∨ ∃ op, index_slice l (("(").data) ((pos : Int) - 5) (pos : Int) = some op
              ∧ find_sub l ((")").data) = none) →
        InternalContentLinks.process_line l = .error "Failed to find parenthesis within range")
    ∧ (∀ (l : Str) (pos op ep : Nat), find_sub l (("post_url").data) = some pos →
        index_slice l (("(").data) ((pos : Int) - 5) (pos : Int) = some op →
        find_sub l ((")").data) = some ep →
        (find_sub (strip (pySlice l (op + 1) ep)) (("\x7b%").data) = none
          ∨ find_sub (strip (pySlice l (op + 1) ep)) (("%\x7d").data) = none) →
        InternalContentLinks.process_line l
          = .error ("Can not find markers in " ++ String.mk (strip (pySlice l (op + 1) ep))))
    ∧ (∀ (l : Str) (pos op ep pp pe : Nat), find_sub l (("post_url").data) = some pos →
        index_slice l (("(").data) ((pos : Int) - 5) (pos : Int) = some op →
        find_sub l ((")").data) = some ep →
        find_sub (strip (pySlice l (op + 1) ep)) (("\x7b%").data) = some pp →
        find_sub (strip (pySlice l (op + 1) ep)) (("%\x7d").data) = some pe →
        ("post_url").data.isPrefixOf
            (strip (pySlice (strip (pySlice l (op + 1) ep)) (pp + 2) pe)) = false →
        InternalContentLinks.process_line l
          = .error ("Can not find post_url in "
              ++ String.mk (strip (pySlice (strip (pySlice l (op + 1) ep)) (pp + 2) pe))))
    ∧ (∀ (l : Str) (pos : Nat), find_sub l (("site.url").data) = some pos →
        (index_slice l (("(").data) ((pos : Int) - 5) (pos : Int) = none
          ∨ ∃ op, index_slice l (("(").data) ((pos : Int) - 5) (pos : Int) = some op
              ∧ find_sub l ((")").data) = none) →
        SiteLinks.process_line l = .error "Failed to find parenthesis within range")
    ∧ (∀ (l : Str) (pos op ep : Nat), find_sub l (("site.url").data) = some pos →
        index_slice l (("(").data) ((pos : Int) - 5) (pos : Int) = some op →
        find_sub l ((")").data) = some ep →
        (find_sub (strip (pySlice l (op + 1) ep)) (("\x7b\x7b").data) = none
          ∨ find_sub (strip (pySlice l (op + 1) ep)) (("\x7d\x7d").data) = none) →
        SiteLinks.process_line l
          = .error ("Can not find markers in " ++ String.mk (strip (pySlice l (op + 1) ep))))
    ∧ (∀ (l : Str) (pos op ep pp pe : Nat), find_sub l (("site.url").data) = some pos →
        index_slice l (("(").data) ((pos : Int) - 5) (pos : Int) = some op →
        find_sub l ((")").data) = some ep →
        find_sub (strip (pySlice l (op + 1) ep)) (("\x7b\x7b").data) = some pp →
        find_sub (strip (pySlice l (op + 1) ep)) (("\x7d\x7d").data) = some pe →
        strip (pySlice (strip (pySlice l (op + 1) ep)) (pp + 2) pe) ≠ ("site.url").data →
        SiteLinks.process_line l
          = .error ("Can not find tag in " ++ String.mk (strip (pySlice l (op + 1) ep)))) := by
  refine ⟨?_, ?_, ?_, ?_, ?_, ?_⟩
  · intro l pos hpos hfail
    unfold InternalContentLinks.process_line
    rw [hpos]
    show Except.map _ (InternalContentLinks.loop (l.length + 1) l pos) = _
    unfold InternalContentLinks.loop
    rcases hfail with h | ⟨op, hop, hep⟩
    · rw [h]
      rfl
    · rw [hop, hep]
      rfl
  · intro l pos op ep hpos hop hep hmk
    unfold InternalContentLinks.process_line
    rw [hpos]
    show Except.map _ (InternalContentLinks.loop (l.length + 1) l pos) = _
    unfold InternalContentLinks.loop
    rw [hop, hep]
    dsimp only
    rcases hmk with h | h
    · rw [h]
      rfl
    · rw [h]
      cases hpp : find_sub (strip (pySlice l (op + 1) ep)) (("\x7b%").data) <;> rfl
  · intro l pos op ep pp pe hpos hop hep hpp hpe hpre
    unfold InternalContentLinks.process_line
    rw [hpos]
    show Except.map _ (InternalContentLinks.loop (l.length + 1) l pos) = _
    unfold InternalContentLinks.loop
    rw [hop, hep]
    dsimp only
    rw [hpp, hpe]
    dsimp only
    rw [hpre]
    rfl
  · intro l pos hpos hfail
    unfold SiteLinks.process_line
    rw [hpos]
    show Except.map _ (SiteLinks.loop (l.length + 1) l pos) = _
    unfold SiteLinks.loop
    rcases hfail with h | ⟨op, hop, hep⟩
    · rw [h]
      rfl
    · rw [hop, hep]
      rfl
  · intro l pos op ep hpos hop hep hmk
    unfold SiteLinks.process_line
    rw [hpos]
    show Except.map _ (SiteLinks.loop (l.length + 1) l pos) = _
    unfold SiteLinks.loop
    rw [hop, hep]
    dsimp only
    rcases hmk with h | h
    · rw [h]
      rfl
    · rw [h]
      cases hpp : find_sub (strip (pySlice l (op + 1) ep)) (("\x7b\x7b").data) <;> rfl
  · intro l pos op ep pp pe hpos hop hep hpp hpe hne
    unfold SiteLinks.process_line
    rw [hpos]
    show Except.map _ (SiteLinks.loop (l.length + 1) l pos) = _
    unfold SiteLinks.loop
    rw [hop, hep]
    dsimp only
    rw [hpp, hpe]
    dsimp only
    rw [if_neg hne]
    rfl

/-- Witness for C5: concrete malformed lines for each failure mode of both
link rewriters. -/
theorem c5_malformed_link_errors_w :
    InternalContentLinks.process_line (("x post_url\n").data)
        = .error "Failed to find parenthesis within range"
    ∧ InternalContentLinks.process_line (("[x]( post_url\n").data)
        = .error "Failed to find parenthesis within range"
    ∧ InternalContentLinks.process_line (("[x]( post_url )\n").data)
        = .error "Can not find markers in post_url"
    ∧ InternalContentLinks.process_line (("aaaa(post_url \x7b% xx %\x7d)\n").data)
        = .error "Can not find post_url in xx"
    ∧ SiteLinks.process_line (("x site.url\n").data)
        = .error "Failed to find parenthesis within range"
    ∧ SiteLinks.process_line (("[x]( site.url )\n").data)
        = .error "Can not find markers in site.url"
    ∧ SiteLinks.process_line (("aaaa(site.url \x7b\x7bxx\x7d\x7d)\n").data)
        = .error "Can not find tag in site.url \x7b\x7bxx\x7d\x7d" := by
  refine ⟨?_, ?_, ?_, ?_, ?_, ?_, ?_⟩
  · exact c5_malformed_link_errors.1 (("x post_url\n").data) 2 (by decide)
      (Or.inl (by decide))
  · exact c5_malformed_link_errors.1 (("[x]( post_url\n").data) 5 (by decide)
      (Or.inr ⟨3, by decide, by decide⟩)
  · exact c5_malformed_link_errors.2.1 (("[x]( post_url )\n").data) 5 3 14 (by decide)
      (by decide) (by decide) (Or.inl (by decide))
  · exact c5_malformed_link_errors.2.2.1 (("aaaa(post_url \x7b% xx %\x7d)\n").data) 5 4 22 9 15
      (by decide) (by decide) (by decide) (by decide) (by decide) (by decide)
  · exact c5_malformed_link_errors.2.2.2.1 (("x site.url\n").data) 2 (by decide)
      (Or.inl (by decide))
  · exact c5_malformed_link_errors.2.2.2.2.1 (("[x]( site.url )\n").data) 5 3 14 (by decide)
      (by decide) (by decide) (Or.inl (by decide))
  · exact c5_malformed_link_errors.2.2.2.2.2 (("aaaa(site.url \x7b\x7bxx\x7d\x7d)\n").data) 5 4 20 9 13
      (by decide) (by decide) (by decide) (by decide) (by decide) (by decide)

/-- The three tag names that `_new_header_content` re-emits. -/
def recognizedTag (k : Str) : Bool :=
  decide (k = ("title").data) || decide (k = ("tags").data) || decide (k = ("description").data)

/-- An unrecognized tag renders to nothing. -/
theorem renderOne_unrecognized (k : Str) (v : TagValue) (h : recognizedTag k = false) :
    renderOne k v = .ok [] := by
  unfold recognizedTag at h
  simp only [Bool.or_eq_false_iff, decide_eq_false_iff_not] at h
  obtain ⟨⟨h1, h2⟩, h3⟩ := h
  unfold renderOne
  rw [if_neg h1, if_neg h2, if_neg h3]

/-- C1: the reference front matter (`title: "Foo"`, `tags:` with items `a`
and `b`, `description: bar`) is consumed silently line by line and the
closing delimiter emits exactly `Title: Foo\nTags: a, b\nSummary: bar\n`;
rendering ignores every entry whose tag is not `title`, `tags` or
`description`; and a closing delimiter whose collected content renders to
nothing emits nothing at all. -/
theorem c1_front_matter_roundtrip :
    (runHeaderLines initHeader 0
        [("---\n").data, ("title: \"Foo\"\n").data, ("tags:\n").data, ("- a\n").data,
          ("- b\n").data, ("description: bar\n").data, ("---\n").data]).map (fun r => r.2)
      = .ok [(true, none), (true, none), (true, none), (true, none), (true, none),
          (true, none), (true, some (("Title: Foo\nTags: a, b\nSummary: bar\n").data))]
    ∧ (∀ c : List (Str × TagValue),
        HeaderTransformer.new_header_content c
          = HeaderTransformer.new_header_content (c.filter (fun p => recognizedTag p.1)))
    ∧ (∀ (st : HeaderTransformer) (n : Nat),
        st.primed = true → st.completed = false → n ≠ 0 →
        HeaderTransformer.new_header_content st.content = .ok [] →
        HeaderTransformer.process_line st n (("---\n").data)
          = .ok ({ st with completed := true }, true, none)) := by
  refine ⟨by decide, ?_, ?_⟩
  · intro c
    induction c with
    | nil => rfl
    | cons hd tl ih =>
      obtain ⟨k, v⟩ := hd
      cases hr : recognizedTag k with
      | false =>
        have hfil : List.filter (fun p => recognizedTag p.1) ((k, v) :: tl)
            = List.filter (fun p => recognizedTag p.1) tl := by
          simp [List.filter_cons, hr]
        rw [hfil, ← ih]
        show Except.bind (renderOne k v) _ = _
        rw [renderOne_unrecognized k v hr, exbind_ok]
        exact exbind_okid _
      | true =>
        have hfil : List.filter (fun p => recognizedTag p.1) ((k, v) :: tl)
            = (k, v) :: List.filter (fun p => recognizedTag p.1) tl := by
          simp [List.filter_cons, hr]
        rw [hfil]
        show Except.bind (renderOne k v) _ = Except.bind (renderOne k v) _
        simp only [ih]
  · intro st n hp hc hn hren
    unfold HeaderTransformer.process_line
    rw [if_neg (fun h => hn h.1), if_neg (by rw [hp, hc]; simp)]
    have h1 : find_sub (("---\n").data) ((":").data) = none := by decide
    rw [h1]
    dsimp only
    rw [if_neg (by decide), if_pos rfl, hren]
    dsimp only [Except.map]
    rw [if_pos rfl]

/-- A primed state holding only an unrecognized tag (`layout`). -/
def stUnrecognized : HeaderTransformer :=
  { primed := true, completed := false,
    content := [(("layout").data, TagValue.str (("post").data))],
    current_tag := some (("layout").data) }

/-- Witness for C1: a header that collected only the unrecognized `layout`
tag collapses to nothing on the closing delimiter. -/
theorem c1_front_matter_roundtrip_w :
    HeaderTransformer.process_line stUnrecognized 3 (("---\n").data)
      = .ok ({ stUnrecognized with completed := true }, true, none) :=
  c1_front_matter_roundtrip.2.2 stUnrecognized 3 rfl rfl (by decide) (by decide)
